import Mathlib

/-!
Verification of the permission-resolution and edit-schema-derivation core of
`qwc2_viewer_permission.py` (class `QWC2ViewerPermission`).

The module is embedded shallowly: the two external permission oracles
(OGC service and Data service), and the two relational queries executed by
`edit_datasets` (the granted-map query and the writable-data query), are
modelled as oracle functions packaged in an `Oracles` structure — the spec
treats the ORM/session and the oracle internals as external collaborators.
Python dicts become association lists with insert-or-overwrite semantics,
`logger.warn` becomes an explicit list of emitted warning strings, and a
raised Python exception (`KeyError`, `TypeError`) becomes an explicit error
value threaded through the result.
-/

namespace QWC2

/-- A leaf entry of the theme tree: `item.get('url')` may be absent. -/
structure Item where
  url : Option String
  deriving DecidableEq, Repr

/-- A theme-configuration group: `group_config.get('items', [])` and
`group_config.get('groups', [])`. -/
inductive ThemeGroup where
  | node (items : List Item) (groups : List ThemeGroup)

/-- The `items` list of a theme group. -/
def ThemeGroup.items : ThemeGroup → List Item
  | .node its _ => its

/-- The `groups` list of a theme group. -/
def ThemeGroup.groups : ThemeGroup → List ThemeGroup
  | .node _ gs => gs

/-- Opaque payload returned by the OGC permission oracle, modelled as a dict
(association list); Python truthiness of a dict is non-emptiness. -/
abbrev OgcPayload : Type := List (String × String)



/-- Constraints object of a field descriptor: opaque dict; the code only
tests `'values' in field['constraints']` and copies the object verbatim. -/
abbrev Constraints : Type := List (String × String)



/-- Python dict lookup `d.get(k)` on an association list: first binding of
the key, if any. -/
def dictGet {α : Type} (k : String) : List (String × α) → Option α
  | [] => none
  | (k', v) :: rest => if k = k' then some v else dictGet k rest

/-- `'values' in constraints` -/
def hasValues (c : Constraints) : Bool :=
  (dictGet "values" c).isSome

/-- Per-attribute field descriptor from the Data oracle: each of `alias`,
`data_type`, `constraints` is read with `.get`, hence optional. -/
structure FieldDescriptor where
  «alias» : Option String := none
  data_type : Option String := none
  constraints : Option Constraints := none
  deriving DecidableEq, Repr

/-- Result of the Data permission oracle. The code indexes
`permissions['geometry_type']`, `permissions['attributes']` and
`permissions['fields']` without a guard (a missing key raises `KeyError`),
while `schema` and `table_name` are read with `.get`; every key is therefore
modelled as optional, with the unguarded reads erroring on `none`. -/
structure DataPermissions where
  geometry_type : Option String := none
  schema : Option String := none
  table_name : Option String := none
  attributes : Option (List String) := none
  fields : Option (List (String × FieldDescriptor)) := none
  deriving DecidableEq, Repr

/-- Normalized edit-form field (`edit_field` dict): `id`, `name`, `type`,
optional `constraints` key. -/
structure EditField where
  id : String
  name : String
  type : String
  constraints : Option Constraints := none
  deriving DecidableEq, Repr

/-- Per-dataset edit bundle returned by `edit_layer_config`. -/
structure EditLayerConfig where
  layerName : String
  editDataset : String
  fields : List EditField
  geomType : Option String
  deriving DecidableEq, Repr

/-- Map collected by `edit_permissions`: dataset name → `EditLayerConfig`. -/
abbrev EditConfig : Type := List (String × EditLayerConfig)



/-- Accumulator entry `permissions[wms_name]`: the OGC oracle's payload dict,
plus the `edit_config` key which this core may append to it. -/
structure PermissionRecord where
  payload : OgcPayload
  edit_config : Option EditConfig := none
  deriving DecidableEq, Repr

/-- The shared mutable accumulator `permissions`, a dict keyed by service
identifier (insertion-ordered association list). -/
abbrev Accum : Type := List (String × PermissionRecord)


/-- `d[k] = v` on a Python dict: overwrite in place if the key exists,
append otherwise. -/
def dictSet {α : Type} (d : List (String × α)) (k : String) (v : α) :
    List (String × α) :=
  if d.any (fun p => decide (p.1 = k)) then
    d.map (fun p => if p.1 = k then (k, v) else p)
  else
    d ++ [(k, v)]

/-- A row of the relational permission store, as seen through
`permission.resource`: the resource's `id` and `name` are all the loop
bodies read. -/
structure Resource where
  id : Nat
  name : String
  deriving DecidableEq, Repr

/-- Python exceptions that the core can raise, carried as explicit values. -/
abbrev PyError : Type := String


/-- The external collaborators, as oracle functions of the arguments the
code passes them (service identifier / dataset / map id, username, group). -/
structure Oracles where
  /-- `ogc_permission_handler.permissions({ows_type: WMS, ows_name}, username, group, session)` -/
  ogc : String → String → String → OgcPayload
  /-- `data_permission_handler.permissions({dataset}, username, group, session)` -/
  dataPerm : String → String → String → DataPermissions
  /-- rows of `maps_query.all()` (granted `map` resources named `map_name`), in iteration order -/
  mapsQuery : String → String → String → List Resource
  /-- rows of `data_query.all()` (write-granted `data` resources with `parent_id = map_id`), in iteration order -/
  dataQuery : Nat → String → String → List Resource

/-! ### Type mapping tables (lines 17–43) -/

/-- `EDIT_GEOM_TYPES`: PostGIS geometry type → QWC2 edit geometry type. -/
def EDIT_GEOM_TYPES : List (String × String) :=
  [("POINT", "Point"),
   ("MULTIPOINT", "MultiPoint"),
   ("LINESTRING", "LineString"),
   ("MULTILINESTRING", "MultiLineString"),
   ("POLYGON", "Polygon"),
   ("MULTIPOLYGON", "MultiPolygon")]

/-- `EDIT_FIELD_TYPES`: PostgreSQL data_type → QWC2 edit field type. -/
def EDIT_FIELD_TYPES : List (String × String) :=
  [("bigint", "number"),
   ("boolean", "boolean"),
   ("character varying", "text"),
   ("date", "date"),
   ("double precision", "text"),
   ("integer", "number"),
   ("numeric", "number"),
   ("real", "text"),
   ("smallint", "number"),
   ("text", "text"),
   ("time", "time"),
   ("timestamp with time zone", "date"),
   ("timestamp without time zone", "date"),
   ("uuid", "text")]

/-- `self.EDIT_FIELD_TYPES.get(field.get('data_type'), 'text')`. -/
def editFieldTypeGet (dt : Option String) : String :=
  match dt with
  | none => "text"
  | some t => (dictGet t EDIT_FIELD_TYPES).getD "text"

/-! ### URL handling (lines 66–68, 105–110) -/

/-- Characters before the first occurrence of `c` (the whole list when `c`
does not occur). -/
def takeUntilChar (c : Char) : List Char → List Char
  | [] => []
  | x :: rest => if x = c then [] else x :: takeUntilChar c rest

/-- Split at the first occurrence of `sep`: `some (before, after)` when `sep`
occurs, `none` otherwise. -/
def splitFirst (sep : List Char) : List Char → Option (List Char × List Char)
  | [] => none
  | c :: rest =>
    if sep.isPrefixOf (c :: rest) then
      some ([], (c :: rest).drop sep.length)
    else
      (splitFirst sep rest).map (fun p => (c :: p.1, p.2))

/-- The suffix starting at the first occurrence of `c` (empty when `c` does
not occur). -/
def suffixFrom (c : Char) : List Char → List Char
  | [] => []
  | x :: rest => if x = c then x :: rest else suffixFrom c rest

/-- Path component of a URL, as `werkzeug.urls.url_parse(url).path` computes
it for the URL shapes this module sees: strip a fragment, strip a query
string, then drop `scheme://netloc` when present — the path of a URL with an
authority begins at the first slash after it; a URL without `://` is all
path. -/
def urlPath (url : String) : String :=
  let cs := takeUntilChar '?' (takeUntilChar '#' url.data)
  match splitFirst [':', '/', '/'] cs with
  | none => String.mk cs
  | some p => String.mk (suffixFrom '/' p.2)

/-- Python `s.startswith(prefix)`. -/
def pyStartsWith (s p : String) : Bool :=
  p.data.isPrefixOf s.data

/-- Python `s[len(prefix):]` — drop that many characters. -/
def pyDropLen (s p : String) : String :=
  String.mk (s.data.drop p.data.length)

/-- Strip trailing slashes: `qgis_server_url.rstrip('/')`. -/
def rstripSlashes (s : String) : String :=
  String.mk ((s.data.reverse.dropWhile (fun c => c == '/')).reverse)

/-- `self.qgis_server_base_path` as computed in the constructor:
`url_parse(QGIS_SERVER_URL.rstrip('/') + '/').path`. -/
def qgisServerBasePath (qgis_server_url : String) : String :=
  urlPath (rstripSlashes qgis_server_url ++ "/")

/-- Lines 108–110: relative WMS name — the URL's path with the QGIS server
base path stripped when the path starts with it (plain prefix match). -/
def wmsNameOf (base_path url : String) : String :=
  let wms_name := urlPath url
  if pyStartsWith wms_name base_path then
    pyDropLen wms_name base_path
  else
    wms_name

/-! ### Edit schema builder: `edit_layer_config` (lines 186–244) -/

/-- `'%s'` formatting of a value that may be Python `None`. -/
def pyStr (o : Option String) : String :=
  o.getD "None"

/-- The warning emitted for an unsupported geometry type (lines 208–212). -/
def unsupportedGeomWarning (geometry_type dataset table : String) : String :=
  "Unsupported geometry type '" ++ geometry_type ++ "' for edit dataset '"
    ++ dataset ++ "' on table '" ++ table ++ "'"

/-- Loop body of lines 216–235 for one attribute: look up the field
descriptor (missing → empty descriptor), derive alias and UI type, copy
constraints verbatim and override the type to `list` when they contain
`values`. -/
def buildField (fieldsMap : List (String × FieldDescriptor)) (attr : String) :
    EditField :=
  let field := (dictGet attr fieldsMap).getD {}
  let «alias» := field.«alias».getD attr
  let data_type := editFieldTypeGet field.data_type
  let base : EditField := { id := attr, name := «alias», type := data_type }
  match field.constraints with
  | none => base
  | some c =>
    { base with
      constraints := some c
      type := if hasValues c then "list" else data_type }

/-- The `for attr in permissions['attributes']` loop: `permissions['fields']`
is only indexed inside the loop body, so a missing `fields` key raises
`KeyError` exactly when the attribute list is non-empty. -/
def buildFields (fieldsOpt : Option (List (String × FieldDescriptor))) :
    List String → Except PyError (List EditField)
  | [] => .ok []
  | attr :: rest =>
    match fieldsOpt with
    | none => .error "KeyError: fields"
    | some fm =>
      match buildFields (some fm) rest with
      | .error e => .error e
      | .ok tl => .ok (buildField fm attr :: tl)

/-- `edit_layer_config(map_name, layer_name, username, group, session)`:
query the Data oracle for `"<map_name>.<layer_name>"`; on an unsupported
geometry type warn once and return the empty dict (`.ok none`); otherwise
assemble the `EditLayerConfig`. The first component is the list of warnings
emitted; the second is the returned value or the raised exception. -/
def edit_layer_config (dataPerm : String → String → String → DataPermissions)
    (map_name layer_name username group : String) :
    List String × Except PyError (Option EditLayerConfig) :=
  let dataset := map_name ++ "." ++ layer_name
  let permissions := dataPerm dataset username group
  match permissions.geometry_type with
  | none => ([], .error "KeyError: geometry_type")
  | some gt =>
    if (dictGet gt EDIT_GEOM_TYPES).isNone then
      let table := pyStr permissions.schema ++ "." ++ pyStr permissions.table_name
      ([unsupportedGeomWarning gt dataset table], .ok none)
    else
      match permissions.attributes with
      | none => ([], .error "KeyError: attributes")
      | some attrs =>
        match buildFields permissions.fields attrs with
        | .error e => ([], .error e)
        | .ok fields =>
          ([], .ok (some
            { layerName := layer_name
              editDataset := dataset
              fields := fields
              geomType := dictGet gt EDIT_GEOM_TYPES }))

/-! ### Edit dataset resolution: `edit_datasets` (lines 151–184) -/

/-- The `for map_permission in maps_query.all(): map_id = ...resource.id`
loop: each iteration overwrites `map_id`, so the last row wins. -/
def lastMapId (rows : List Resource) : Option Nat :=
  rows.foldl (fun _ r => some r.id) none

/-- `edit_datasets(map_name, username, group, session)`: resolve the map id
from the granted-map query rows (last row's resource id, `None` if no rows),
return `[]` when `None`, else the names of the write-granted data rows. -/
def edit_datasets (mapsQuery : String → String → String → List Resource)
    (dataQuery : Nat → String → String → List Resource)
    (map_name username group : String) : List String :=
  match lastMapId (mapsQuery map_name username group) with
  | none => []
  | some map_id => (dataQuery map_id username group).map (fun r => r.name)

/-! ### Edit permission aggregator: `edit_permissions` (lines 131–149) -/

/-- The `for dataset in edit_datasets` loop of `edit_permissions`: build each
layer config, keep only truthy (non-empty) results under the dataset key, and
propagate a raised exception; warnings accumulate across iterations. -/
def editPermissionsLoop (o : Oracles) (map_name username group : String) :
    List String → List String → EditConfig →
    List String × Except PyError EditConfig
  | [], warns, acc => (warns, .ok acc)
  | dataset :: rest, warns, acc =>
    match edit_layer_config o.dataPerm map_name dataset username group with
    | (w, .error e) => (warns ++ w, .error e)
    | (w, .ok none) => editPermissionsLoop o map_name username group rest (warns ++ w) acc
    | (w, .ok (some cfg)) =>
      editPermissionsLoop o map_name username group rest (warns ++ w)
        (dictSet acc dataset cfg)

/-- `edit_permissions(map_name, username, group, session)`: aggregate the
edit layer configs of all permitted edit datasets of the map. -/
def edit_permissions (o : Oracles) (map_name username group : String) :
    List String × Except PyError EditConfig :=
  editPermissionsLoop o map_name username group
    (edit_datasets o.mapsQuery o.dataQuery map_name username group) [] []

/-! ### Theme tree walker: `themes_group_permissions` (lines 92–129) -/

/-- Loop body of lines 104–124 for one theme item: derive the WMS name,
store the OGC oracle's result under it, and if that result is truthy attach
a non-empty edit config under the `edit_config` key of the stored record.
Returns the accumulator state plus a raised exception, if any. -/
def processItem (o : Oracles) (base_path username group : String)
    (acc : Accum) (item : Item) : Accum × Option PyError :=
  match item.url with
  | none => (acc, none)
  | some url =>
    let wms_name := wmsNameOf base_path url
    let payload := o.ogc wms_name username group
    let acc := dictSet acc wms_name { payload := payload }
    if payload.isEmpty then
      (acc, none)
    else
      match edit_permissions o wms_name username group with
      | (_, .error e) => (acc, some e)
      | (_, .ok edit_config) =>
        if edit_config.isEmpty then
          (acc, none)
        else
          (dictSet acc wms_name { payload := payload, edit_config := some edit_config },
           none)

/-- The `for item in theme_items` loop: stop at the first raised exception. -/
def runItems (o : Oracles) (base_path username group : String) :
    List Item → Accum → Accum × Option PyError
  | [], acc => (acc, none)
  | item :: rest, acc =>
    match processItem o base_path username group acc item with
    | (acc, some e) => (acc, some e)
    | (acc, none) => runItems o base_path username group rest acc

/-- `themes_group_permissions(group_config, permissions, username, group,
session)`. After the item loop, line 129 executes
`self.themes_group_permissions(group, permissions, username, group)`: the
method requires five positional arguments (`group_config`, `permissions`,
`username`, `group`, `session`) but the call supplies only four (and its
`group` arguments are the loop variable shadowing the subject), so on the
first child group Python raises
`TypeError: themes_group_permissions() missing 1 required positional
argument: session` before the callee runs — the recursion never executes.
The embedding therefore returns the accumulator as mutated by the item loop,
together with the propagated exception whenever `groups` is non-empty. -/
def themes_group_permissions (o : Oracles) (base_path : String)
    (group_config : ThemeGroup) (permissions : Accum)
    (username group : String) : Accum × Option PyError :=
  match runItems o base_path username group group_config.items permissions with
  | (acc, some e) => (acc, some e)
  | (acc, none) =>
    if group_config.groups.isEmpty then
      (acc, none)
    else
      (acc, some "TypeError: themes_group_permissions() missing 1 required positional argument: session")

/-! ### Auxiliary definitions for the statements -/

/-- The spec's column-type table (§4.1), written from the spec's words:
bigint/integer/smallint/numeric→number, boolean→boolean,
character varying/real→text, date/timestamp (with or without time
zone)→date, time→time, uuid→text. For comparison with the code's
`EDIT_FIELD_TYPES`-based derivation. -/
def SPEC_COLUMN_TYPES : List (String × String) :=
  [("bigint", "number"), ("integer", "number"), ("smallint", "number"),
   ("numeric", "number"), ("boolean", "boolean"),
   ("character varying", "text"), ("real", "text"), ("date", "date"),
   ("timestamp with time zone", "date"), ("timestamp without time zone", "date"),
   ("time", "time"), ("uuid", "text")]

/-- The spec's column-type mapping with its default `text` for anything
unlisted, applied to an optional data_type. -/
def specColumnType (dt : Option String) : String :=
  match dt with
  | none => "text"
  | some t => (dictGet t SPEC_COLUMN_TYPES).getD "text"

/-- A field descriptor whose constraints (if any) carry no enumerated
`values` entry. -/
def noValuesConstraint (fd : FieldDescriptor) : Bool :=
  match fd.constraints with
  | none => true
  | some c => !hasValues c

/-- Lookup of a dataset key in an aggregator result: `none` when the call
raised, otherwise the dict lookup. -/
def lookupOk (r : Except PyError EditConfig) (k : String) : Option EditLayerConfig :=
  match r with
  | .error _ => none
  | .ok m => dictGet k m

/-- `true` iff the computation returned normally (raised no exception). -/
def exceptIsOk {ε α : Type} : Except ε α → Bool
  | .ok _ => true
  | .error _ => false

/-! ### Concrete collaborator instances used in closed statements -/

/-- Collaborators that grant every WMS request and expose nothing editable. -/
def grantNoEditOracles : Oracles where
  ogc := fun _ _ _ => [("layers", "all")]
  dataPerm := fun _ _ _ => {}
  mapsQuery := fun _ _ _ => []
  dataQuery := fun _ _ _ => []

/-- Collaborators that deny every WMS request; the Data oracle's result lacks
every key, so consulting it would raise. -/
def denyAllOracles : Oracles where
  ogc := fun _ _ _ => []
  dataPerm := fun _ _ _ => {}
  mapsQuery := fun _ _ _ => []
  dataQuery := fun _ _ _ => []

/-- Collaborators for an editable dataset whose geometry type is the
unsupported `GEOMETRYCOLLECTION`. -/
def geomCollectionOracles : Oracles where
  ogc := fun _ _ _ => [("layers", "all")]
  dataPerm := fun _ _ _ =>
    { geometry_type := some "GEOMETRYCOLLECTION", schema := some "public",
      table_name := some "collections" }
  mapsQuery := fun _ _ _ => [{ id := 1, name := "Map1" }]
  dataQuery := fun _ _ _ => [{ id := 7, name := "parcels" }]

/-- Collaborators whose granted-map query yields two permission rows with
the same resource name and distinct ids; the data query distinguishes the
two map ids. -/
def twoMapsOracles : Oracles where
  ogc := fun _ _ _ => []
  dataPerm := fun _ _ _ => {}
  mapsQuery := fun _ _ _ => [{ id := 1, name := "Map1" }, { id := 2, name := "Map1" }]
  dataQuery := fun map_id _ _ =>
    if map_id = 2 then [{ id := 20, name := "from_map2" }]
    else [{ id := 10, name := "from_map1" }]

/-- Data oracle whose result lacks the `geometry_type` key. -/
def dpMissingGeometry : String → String → String → DataPermissions :=
  fun _ _ _ => { attributes := some ["a"], fields := some [] }

/-- Data oracle whose result lacks the `attributes` key. -/
def dpMissingAttributes : String → String → String → DataPermissions :=
  fun _ _ _ => { geometry_type := some "POINT", fields := some [] }

/-- Data oracle whose result lacks the `fields` key, with a non-empty
attribute list. -/
def dpMissingFields : String → String → String → DataPermissions :=
  fun _ _ _ => { geometry_type := some "POINT", attributes := some ["a"] }

/-- Data oracle for the spec's Scenario B: `POLYGON` dataset with one
`character varying` attribute `owner` and no constraints. -/
def dpScenarioB : String → String → String → DataPermissions :=
  fun _ _ _ =>
    { geometry_type := some "POLYGON", schema := some "public",
      table_name := some "parcels", attributes := some ["owner"],
      fields := some [("owner", { data_type := some "character varying" })] }

/-- The edit layer config Scenario B produces. -/
def scenarioBConfig : EditLayerConfig :=
  { layerName := "parcels", editDataset := "Map1.parcels",
    fields := [{ id := "owner", name := "owner", type := "text", constraints := none }],
    geomType := some "Polygon" }

/-- A numeric field descriptor carrying an enumerated `values` constraint. -/
def quality_descriptor : FieldDescriptor :=
  { data_type := some "integer", constraints := some [("values", "low,high")] }

/-- Another numeric field descriptor with an enumerated `values` constraint. -/
def status_descriptor : FieldDescriptor :=
  { data_type := some "integer", constraints := some [("values", "open,closed")] }

/-! ### Dictionary and loop lemmas -/

theorem dictGet_cons {α : Type} (k : String) (p : String × α) (t : List (String × α)) :
    dictGet k (p :: t) = if k = p.1 then some p.2 else dictGet k t := by
  obtain ⟨a, b⟩ := p
  rfl

theorem dictGet_eq_none {α : Type} {d : List (String × α)} {t : String}
    (h : t ∉ d.map Prod.fst) : dictGet t d = none := by
  induction d with
  | nil => rfl
  | cons p rest ih =>
    simp only [List.map_cons, List.mem_cons, not_or] at h
    simp only [dictGet_cons, if_neg h.1]
    exact ih h.2

theorem lookup_dictSet_self {α : Type} (d : List (String × α)) (k : String) (v : α) :
    dictGet k (dictSet d k v) = some v := by
  unfold dictSet
  split
  case isTrue h =>
    induction d with
    | nil => simp at h
    | cons p t ih =>
      simp only [List.any_cons, Bool.or_eq_true, decide_eq_true_eq] at h
      simp only [List.map_cons]
      by_cases hp : p.1 = k
      · rw [if_pos hp, dictGet_cons]
        simp
      · rw [if_neg hp, dictGet_cons, if_neg (fun hh => hp hh.symm)]
        exact ih (h.resolve_left hp)
  case isFalse h =>
    induction d with
    | nil => simp [dictGet_cons, dictGet]
    | cons p t ih =>
      simp only [List.any_cons, Bool.or_eq_true, decide_eq_true_eq, not_or] at h
      rw [List.cons_append, dictGet_cons, if_neg (fun hh => h.1 hh.symm)]
      exact ih h.2

theorem dictGet_mapOverwrite_ne {α : Type} (t : List (String × α)) (k k' : String)
    (v : α) (hne : k' ≠ k) :
    dictGet k' (t.map (fun p => if p.1 = k then (k, v) else p)) = dictGet k' t := by
  induction t with
  | nil => rfl
  | cons p rest ih =>
    simp only [List.map_cons]
    by_cases hp : p.1 = k
    · rw [if_pos hp, dictGet_cons, dictGet_cons]
      rw [if_neg hne, if_neg (fun hh => hne (hh.trans hp))]
      exact ih
    · rw [if_neg hp, dictGet_cons, dictGet_cons]
      by_cases hk : k' = p.1
      · rw [if_pos hk, if_pos hk]
      · rw [if_neg hk, if_neg hk]
        exact ih

theorem lookup_dictSet_ne {α : Type} (d : List (String × α)) (k k' : String)
    (v : α) (hne : k' ≠ k) :
    dictGet k' (dictSet d k v) = dictGet k' d := by
  unfold dictSet
  split
  · exact dictGet_mapOverwrite_ne d k k' v hne
  case isFalse h =>
    induction d with
    | nil => simp [dictGet_cons, dictGet, if_neg hne]
    | cons p rest ih =>
      simp only [List.any_cons, Bool.or_eq_true, decide_eq_true_eq, not_or] at h
      rw [List.cons_append, dictGet_cons, dictGet_cons]
      by_cases hk : k' = p.1
      · rw [if_pos hk, if_pos hk]
      · rw [if_neg hk, if_neg hk]
        exact ih h.2

theorem editFieldTypeGet_eq_spec (dt : Option String) :
    editFieldTypeGet dt = specColumnType dt := by
  cases dt with
  | none => rfl
  | some t =>
    by_cases h : t ∈ ["bigint", "boolean", "character varying", "date",
      "double precision", "integer", "numeric", "real", "smallint", "text",
      "time", "timestamp with time zone", "timestamp without time zone", "uuid"]
    · fin_cases h <;> rfl
    · have e1 : dictGet t EDIT_FIELD_TYPES = none := by
        apply dictGet_eq_none
        simpa [EDIT_FIELD_TYPES] using h
      have e2 : dictGet t SPEC_COLUMN_TYPES = none := by
        apply dictGet_eq_none
        simp only [SPEC_COLUMN_TYPES, List.map_cons, List.map_nil,
          List.mem_cons, List.not_mem_nil, not_or] at *
        tauto
      simp [editFieldTypeGet, specColumnType, e1, e2]

theorem foldlOverwrite (l : List Resource) (init : Option Nat) (r : Resource)
    (h : l.getLast? = some r) :
    l.foldl (fun _ x => some x.id) init = some r.id := by
  induction l generalizing init with
  | nil => simp at h
  | cons x t ih =>
    cases t with
    | nil =>
      have hx : x = r := by simpa using h
      subst hx
      rfl
    | cons y t' =>
      rw [List.getLast?_cons_cons] at h
      rw [List.foldl_cons]
      exact ih _ h

theorem buildField_id (fm : List (String × FieldDescriptor)) (attr : String) :
    (buildField fm attr).id = attr := by
  simp only [buildField]
  split <;> rfl

theorem buildFields_some (fm : List (String × FieldDescriptor)) (attrs : List String) :
    buildFields (some fm) attrs = .ok (attrs.map (buildField fm)) := by
  induction attrs with
  | nil => rfl
  | cons a rest ih =>
    simp only [buildFields, ih, List.map_cons]

theorem editPermissionsLoop_lookup_none (o : Oracles) (m u g layer : String)
    (h : (edit_layer_config o.dataPerm m layer u g).2 = .ok none) :
    ∀ (datasets ws : List String) (acc : EditConfig) (res : EditConfig),
      (editPermissionsLoop o m u g datasets ws acc).2 = .ok res →
      dictGet layer res = dictGet layer acc := by
  intro datasets
  induction datasets with
  | nil =>
    intro ws acc res hr
    simp only [editPermissionsLoop] at hr
    cases hr
    rfl
  | cons ds rest ih =>
    intro ws acc res hr
    simp only [editPermissionsLoop] at hr
    rcases hcfg : edit_layer_config o.dataPerm m ds u g with ⟨w, r⟩
    rw [hcfg] at hr
    cases r with
    | error e => simp at hr
    | ok v =>
      cases v with
      | none => exact ih _ _ _ hr
      | some cfg =>
        rw [ih _ _ _ hr]
        have hne : layer ≠ ds := by
          intro hEq
          subst hEq
          rw [hcfg] at h
          simp at h
        exact lookup_dictSet_ne acc ds layer cfg hne

/-! ### Claim theorems -/

/-- C1: the claim states that the walker recurses into every child group
with the same accumulator and the caller's original subject and session.
The code does not: line 129 calls `themes_group_permissions` with four of
its five required arguments (`session` is missing, and both `group`
arguments are the loop variable shadowing the subject), so on a
configuration with a child group Python raises a `TypeError` and the leaf
items of nested sub-groups never reach the accumulator. Evaluated here at a
config whose only leaf sits inside a child group: the accumulator stays
empty and the exception propagates. -/
theorem C1_child_group_recursion_raises :
    themes_group_permissions grantNoEditOracles "/wms/"
        (.node [] [.node [{ url := some "http://host/wms/Map2" }] []]) []
        "alice" "editors"
      = ([], some "TypeError: themes_group_permissions() missing 1 required positional argument: session") := by
  rfl

/-- C2: when the Data oracle's geometry_type is not a key of
`EDIT_GEOM_TYPES`, `edit_layer_config` returns the empty config without
raising and emits exactly one warning naming the geometry type, the
qualified dataset and the schema-qualified table, and `edit_permissions`
omits that dataset from any successfully returned map. -/
theorem C2_unsupported_geometry (o : Oracles)
    (map_name layer_name username group gt : String)
    (hgt : (o.dataPerm (map_name ++ "." ++ layer_name) username group).geometry_type = some gt)
    (hunsup : dictGet gt EDIT_GEOM_TYPES = none) :
    edit_layer_config o.dataPerm map_name layer_name username group =
      ([unsupportedGeomWarning gt (map_name ++ "." ++ layer_name)
          (pyStr (o.dataPerm (map_name ++ "." ++ layer_name) username group).schema ++ "."
            ++ pyStr (o.dataPerm (map_name ++ "." ++ layer_name) username group).table_name)],
        .ok none)
    ∧ lookupOk (edit_permissions o map_name username group).2 layer_name = none := by
  have h1 : edit_layer_config o.dataPerm map_name layer_name username group =
      ([unsupportedGeomWarning gt (map_name ++ "." ++ layer_name)
          (pyStr (o.dataPerm (map_name ++ "." ++ layer_name) username group).schema ++ "."
            ++ pyStr (o.dataPerm (map_name ++ "." ++ layer_name) username group).table_name)],
        .ok none) := by
    simp only [edit_layer_config]
    rw [hgt]
    simp [hunsup]
  refine ⟨h1, ?_⟩
  have h2 : (edit_layer_config o.dataPerm map_name layer_name username group).2 = .ok none := by
    rw [h1]
  unfold edit_permissions
  cases hr : (editPermissionsLoop o map_name username group
      (edit_datasets o.mapsQuery o.dataQuery map_name username group) [] []).2 with
  | error e => simp [lookupOk, hr]
  | ok res =>
    have := editPermissionsLoop_lookup_none o map_name username group layer_name h2
      (edit_datasets o.mapsQuery o.dataQuery map_name username group) [] [] res hr
    simp [lookupOk, hr, this]
    rfl

theorem C2_witness :
    (geomCollectionOracles.dataPerm ("Map1" ++ "." ++ "parcels") "alice" "editors").geometry_type
      = some "GEOMETRYCOLLECTION"
    ∧ dictGet "GEOMETRYCOLLECTION" EDIT_GEOM_TYPES = none
    ∧ (edit_layer_config geomCollectionOracles.dataPerm "Map1" "parcels" "alice" "editors" =
        ([unsupportedGeomWarning "GEOMETRYCOLLECTION" ("Map1" ++ "." ++ "parcels")
            (pyStr (geomCollectionOracles.dataPerm ("Map1" ++ "." ++ "parcels") "alice" "editors").schema ++ "."
              ++ pyStr (geomCollectionOracles.dataPerm ("Map1" ++ "." ++ "parcels") "alice" "editors").table_name)],
          .ok none)
      ∧ lookupOk (edit_permissions geomCollectionOracles "Map1" "alice" "editors").2 "parcels" = none) :=
  ⟨rfl, rfl,
    C2_unsupported_geometry geomCollectionOracles "Map1" "parcels" "alice" "editors"
      "GEOMETRYCOLLECTION" rfl rfl⟩

/-- C3: when the OGC oracle denies a service identifier (returns the falsy
empty dict), the walker's item step stores that falsy result under the
identifier and returns without consulting the edit-permission machinery
(the conclusion holds for arbitrary Data-side collaborators and reports no
raised exception), and the stored entry carries no `edit_config` key. -/
theorem C3_denied_ogc_skips_edit (o : Oracles) (base_path username group : String)
    (acc : Accum) (item : Item) (url : String)
    (hurl : item.url = some url)
    (hdeny : o.ogc (wmsNameOf base_path url) username group = []) :
    processItem o base_path username group acc item =
      (dictSet acc (wmsNameOf base_path url) { payload := [], edit_config := none }, none)
    ∧ dictGet (wmsNameOf base_path url) (processItem o base_path username group acc item).1 =
        some { payload := [], edit_config := none } := by
  have h1 : processItem o base_path username group acc item =
      (dictSet acc (wmsNameOf base_path url) { payload := [], edit_config := none }, none) := by
    unfold processItem
    rw [hurl]
    simp [hdeny]
  refine ⟨h1, ?_⟩
  rw [h1]
  exact lookup_dictSet_self acc (wmsNameOf base_path url) _

theorem C3_witness :
    ({ url := some "http://host/wms/Map1" } : Item).url = some "http://host/wms/Map1"
    ∧ denyAllOracles.ogc (wmsNameOf "/wms/" "http://host/wms/Map1") "alice" "editors" = []
    ∧ (processItem denyAllOracles "/wms/" "alice" "editors" []
          { url := some "http://host/wms/Map1" } =
        (dictSet [] (wmsNameOf "/wms/" "http://host/wms/Map1") { payload := [], edit_config := none }, none)
      ∧ dictGet (wmsNameOf "/wms/" "http://host/wms/Map1")
          (processItem denyAllOracles "/wms/" "alice" "editors" []
            { url := some "http://host/wms/Map1" }).1 =
          some { payload := [], edit_config := none }) :=
  ⟨rfl, rfl,
    C3_denied_ogc_skips_edit denyAllOracles "/wms/" "alice" "editors" []
      { url := some "http://host/wms/Map1" } "http://host/wms/Map1" rfl rfl⟩

/-- C4 counterexample: the claim as stated — the derived UI field type
always equals the spec's column-type table applied to the data_type — fails
on a descriptor whose constraints carry an enumerated `values` entry: for
data_type `integer` the table gives `number`, but the derived type is
`list`. -/
theorem C4_counterexample :
    (buildField [("quality", quality_descriptor)] "quality").type = "list"
    ∧ specColumnType (some "integer") = "number"
    ∧ (buildField [("quality", quality_descriptor)] "quality").type
        ≠ specColumnType (some "integer") := by
  refine ⟨rfl, rfl, ?_⟩
  decide

/-- C4 (amended): for every attribute descriptor whose constraints (if any)
carry no enumerated `values` entry, the derived UI field type equals the
spec's column-type table applied to its data_type with default `text`; in
particular a `character varying` field with no alias and no constraints
yields `{id: attr, name: attr, type: text}`. -/
theorem C4_field_type_from_column_table (fm : List (String × FieldDescriptor)) (attr : String)
    (h : noValuesConstraint ((dictGet attr fm).getD {}) = true) :
    (buildField fm attr).type = specColumnType ((dictGet attr fm).getD {}).data_type
    ∧ buildField [(attr, { data_type := some "character varying" })] attr
        = { id := attr, name := attr, type := "text", constraints := none } := by
  constructor
  · rw [← editFieldTypeGet_eq_spec]
    simp only [buildField]
    rcases hc : ((dictGet attr fm).getD {}).constraints with _ | c
    · rfl
    · unfold noValuesConstraint at h
      rw [hc] at h
      simp only [Bool.not_eq_true'] at h
      simp [h]
  · have ht : editFieldTypeGet (some "character varying") = "text" := rfl
    simp [buildField, dictGet, ht]

theorem C4_witness :
    noValuesConstraint ((dictGet "owner"
        [("owner", ({ data_type := some "character varying" } : FieldDescriptor))]).getD {}) = true
    ∧ ((buildField [("owner", { data_type := some "character varying" })] "owner").type
        = specColumnType ((dictGet "owner"
            [("owner", ({ data_type := some "character varying" } : FieldDescriptor))]).getD {}).data_type
      ∧ buildField [("owner", { data_type := some "character varying" })] "owner"
          = { id := "owner", name := "owner", type := "text", constraints := none }) :=
  ⟨rfl, C4_field_type_from_column_table
    [("owner", { data_type := some "character varying" })] "owner" rfl⟩

/-- C5: for every attribute descriptor whose constraints carry an
enumerated `values` entry, the derived field's type is exactly `list`
(overriding the data_type mapping) and the constraints object is copied
verbatim onto the field. -/
theorem C5_values_constraint_forces_list (fm : List (String × FieldDescriptor))
    (attr : String) (c : Constraints)
    (hc : ((dictGet attr fm).getD {}).constraints = some c)
    (hv : hasValues c = true) :
    (buildField fm attr).type = "list" ∧ (buildField fm attr).constraints = some c := by
  constructor
  · simp only [buildField]
    rw [hc]
    simp [hv]
  · simp only [buildField]
    rw [hc]

theorem C5_witness :
    ((dictGet "status" [("status", status_descriptor)]).getD {}).constraints
      = some [("values", "open,closed")]
    ∧ hasValues [("values", "open,closed")] = true
    ∧ ((buildField [("status", status_descriptor)] "status").type = "list"
      ∧ (buildField [("status", status_descriptor)] "status").constraints
          = some [("values", "open,closed")]) :=
  ⟨rfl, rfl,
    C5_values_constraint_forces_list [("status", status_descriptor)] "status"
      [("values", "open,closed")] rfl rfl⟩

/-- C6: when the granted-map query finds no map resource for the given name
and subject, `edit_datasets` returns the empty sequence and
`edit_permissions` returns the empty map, with no exception raised and no
warnings emitted. -/
theorem C6_map_not_found_empty (o : Oracles) (map_name username group : String)
    (h : o.mapsQuery map_name username group = []) :
    edit_datasets o.mapsQuery o.dataQuery map_name username group = []
    ∧ edit_permissions o map_name username group = ([], .ok []) := by
  have h1 : edit_datasets o.mapsQuery o.dataQuery map_name username group = [] := by
    unfold edit_datasets
    rw [h]
    rfl
  refine ⟨h1, ?_⟩
  unfold edit_permissions
  rw [h1]
  rfl

theorem C6_witness :
    grantNoEditOracles.mapsQuery "Map9" "alice" "editors" = []
    ∧ (edit_datasets grantNoEditOracles.mapsQuery grantNoEditOracles.dataQuery
          "Map9" "alice" "editors" = []
      ∧ edit_permissions grantNoEditOracles "Map9" "alice" "editors" = ([], .ok [])) :=
  ⟨rfl, C6_map_not_found_empty grantNoEditOracles "Map9" "alice" "editors" rfl⟩

/-- C7: the accumulator key for a leaf item with a URL is the URL's path
with the configured QGIS base path removed when the path starts with that
exact prefix (plain prefix match), and the unmodified path otherwise, and
after the item step the accumulator holds the OGC oracle's payload under
that key. -/
theorem C7_service_identifier (o : Oracles) (base_path username group : String)
    (acc : Accum) (item : Item) (url : String) (hurl : item.url = some url) :
    (pyStartsWith (urlPath url) base_path = true →
        wmsNameOf base_path url = pyDropLen (urlPath url) base_path)
    ∧ (pyStartsWith (urlPath url) base_path = false →
        wmsNameOf base_path url = urlPath url)
    ∧ (dictGet (wmsNameOf base_path url)
          (processItem o base_path username group acc item).1).map
        (fun r => r.payload)
      = some (o.ogc (wmsNameOf base_path url) username group) := by
  refine ⟨?_, ?_, ?_⟩
  · intro hs
    simp only [wmsNameOf]
    rw [if_pos hs]
  · intro hs
    simp only [wmsNameOf]
    rw [if_neg (by simp [hs])]
  · unfold processItem
    rw [hurl]
    dsimp only
    by_cases hp : (o.ogc (wmsNameOf base_path url) username group).isEmpty = true
    · rw [if_pos hp]
      simp [lookup_dictSet_self]
    · rw [if_neg hp]
      rcases hep : edit_permissions o (wmsNameOf base_path url) username group with ⟨ws, r⟩
      cases r with
      | error e => simp [lookup_dictSet_self]
      | ok ec =>
        by_cases he : ec.isEmpty = true
        · simp [he, lookup_dictSet_self]
        · simp [he, lookup_dictSet_self]

theorem C7_witness :
    ({ url := some "http://host/wms/Map1" } : Item).url = some "http://host/wms/Map1"
    ∧ ((pyStartsWith (urlPath "http://host/wms/Map1") "/wms/" = true →
          wmsNameOf "/wms/" "http://host/wms/Map1" =
            pyDropLen (urlPath "http://host/wms/Map1") "/wms/")
      ∧ (pyStartsWith (urlPath "http://host/wms/Map1") "/wms/" = false →
          wmsNameOf "/wms/" "http://host/wms/Map1" = urlPath "http://host/wms/Map1")
      ∧ (dictGet (wmsNameOf "/wms/" "http://host/wms/Map1")
            (processItem grantNoEditOracles "/wms/" "alice" "editors" []
              { url := some "http://host/wms/Map1" }).1).map (fun r => r.payload)
        = some (grantNoEditOracles.ogc (wmsNameOf "/wms/" "http://host/wms/Map1")
            "alice" "editors"))
    ∧ wmsNameOf "/wms/" "http://host/wms/Map1" = "Map1" :=
  ⟨rfl,
    C7_service_identifier grantNoEditOracles "/wms/" "alice" "editors" []
      { url := some "http://host/wms/Map1" } "http://host/wms/Map1" rfl,
    by decide⟩

/-- C8: every non-empty result of `edit_layer_config` carries exactly one
field per oracle-listed attribute, in the oracle-provided order (the field
ids, read in sequence, are the attribute list itself), and its
`editDataset` equals `"<map_name>.<layer_name>"`. -/
theorem C8_fields_follow_attribute_order
    (dataPerm : String → String → String → DataPermissions)
    (map_name layer_name username group : String)
    (attrs ws : List String) (cfg : EditLayerConfig)
    (hattrs : (dataPerm (map_name ++ "." ++ layer_name) username group).attributes = some attrs)
    (hres : edit_layer_config dataPerm map_name layer_name username group = (ws, .ok (some cfg))) :
    cfg.fields.map (fun f => f.id) = attrs
    ∧ cfg.fields.length = attrs.length
    ∧ cfg.editDataset = map_name ++ "." ++ layer_name := by
  simp only [edit_layer_config] at hres
  rcases hgt : (dataPerm (map_name ++ "." ++ layer_name) username group).geometry_type with _ | gt
  · rw [hgt] at hres
    simp at hres
  · rw [hgt, hattrs] at hres
    dsimp only at hres
    by_cases hsup : (dictGet gt EDIT_GEOM_TYPES).isNone = true
    · rw [if_pos hsup] at hres
      simp at hres
    · rw [if_neg hsup] at hres
      rcases hfm : (dataPerm (map_name ++ "." ++ layer_name) username group).fields with _ | fm
      · rw [hfm] at hres
        cases attrs with
        | nil =>
          simp only [buildFields] at hres
          rw [Prod.mk.injEq] at hres
          obtain ⟨h1, h2⟩ := hres
          injection h2 with h3
          injection h3 with h4
          rw [← h4]
          exact ⟨rfl, rfl, rfl⟩
        | cons a rest =>
          simp only [buildFields] at hres
          simp at hres
      · rw [hfm, buildFields_some] at hres
        rw [Prod.mk.injEq] at hres
        obtain ⟨h1, h2⟩ := hres
        injection h2 with h3
        injection h3 with h4
        rw [← h4]
        refine ⟨?_, ?_, rfl⟩
        · simp [List.map_map, Function.comp_def, buildField_id]
        · simp

theorem C8_witness :
    (dpScenarioB ("Map1" ++ "." ++ "parcels") "alice" "editors").attributes = some ["owner"]
    ∧ edit_layer_config dpScenarioB "Map1" "parcels" "alice" "editors" =
        ([], .ok (some scenarioBConfig))
    ∧ (scenarioBConfig.fields.map (fun f => f.id) = ["owner"]
      ∧ scenarioBConfig.fields.length = (["owner"] : List String).length
      ∧ scenarioBConfig.editDataset = "Map1" ++ "." ++ "parcels") :=
  have hres : edit_layer_config dpScenarioB "Map1" "parcels" "alice" "editors" =
      ([], .ok (some scenarioBConfig)) := rfl
  ⟨rfl, hres,
    C8_fields_follow_attribute_order dpScenarioB "Map1" "parcels" "alice" "editors"
      ["owner"] [] scenarioBConfig rfl hres⟩

/-- C9: the loop over the granted-map query rows overwrites `map_id` on
each iteration, so the data-resource query is made with the resource id of
the last row in query iteration order; which map's datasets are returned
therefore depends on that order. -/
theorem C9_last_map_row_wins (o : Oracles) (map_name username group : String) (r : Resource)
    (h : (o.mapsQuery map_name username group).getLast? = some r) :
    edit_datasets o.mapsQuery o.dataQuery map_name username group =
      (o.dataQuery r.id username group).map (fun x => x.name) := by
  unfold edit_datasets
  have hl : lastMapId (o.mapsQuery map_name username group) = some r.id :=
    foldlOverwrite _ none r h
  rw [hl]

theorem C9_witness :
    (twoMapsOracles.mapsQuery "Map1" "alice" "editors").getLast? =
      some { id := 2, name := "Map1" }
    ∧ edit_datasets twoMapsOracles.mapsQuery twoMapsOracles.dataQuery "Map1" "alice" "editors" =
        ["from_map2"] :=
  ⟨rfl,
    (C9_last_map_row_wins twoMapsOracles "Map1" "alice" "editors"
      { id := 2, name := "Map1" } rfl).trans rfl⟩

/-- C10: `edit_layer_config` raises no exception whenever the Data oracle's
result carries the `geometry_type`, `attributes` and `fields` keys (with
`schema` and `table_name` unconstrained, since they are read with a
default), and each of the three unguarded indexings raises a `KeyError`
when its key is absent, witnessed at concrete oracles each missing exactly
one key. -/
theorem C10_totality_three_keys
    (dataPerm : String → String → String → DataPermissions)
    (map_name layer_name username group : String)
    (h1 : (dataPerm (map_name ++ "." ++ layer_name) username group).geometry_type.isSome = true)
    (h2 : (dataPerm (map_name ++ "." ++ layer_name) username group).attributes.isSome = true)
    (h3 : (dataPerm (map_name ++ "." ++ layer_name) username group).fields.isSome = true) :
    exceptIsOk (edit_layer_config dataPerm map_name layer_name username group).2 = true
    ∧ (edit_layer_config dpMissingGeometry "M" "L" "u" "g").2 = .error "KeyError: geometry_type"
    ∧ (edit_layer_config dpMissingAttributes "M" "L" "u" "g").2 = .error "KeyError: attributes"
    ∧ (edit_layer_config dpMissingFields "M" "L" "u" "g").2 = .error "KeyError: fields" := by
  refine ⟨?_, rfl, rfl, rfl⟩
  simp only [edit_layer_config]
  rcases hgt : (dataPerm (map_name ++ "." ++ layer_name) username group).geometry_type with _ | gt
  · rw [hgt] at h1
    simp at h1
  · dsimp only
    by_cases hsup : (dictGet gt EDIT_GEOM_TYPES).isNone = true
    · rw [if_pos hsup]
      rfl
    · rw [if_neg hsup]
      rcases hattrs : (dataPerm (map_name ++ "." ++ layer_name) username group).attributes with _ | attrs
      · rw [hattrs] at h2
        simp at h2
      · dsimp only
        rcases hfm : (dataPerm (map_name ++ "." ++ layer_name) username group).fields with _ | fm
        · rw [hfm] at h3
          simp at h3
        · rw [buildFields_some]
          rfl

theorem C10_witness :
    (dpScenarioB ("Map1" ++ "." ++ "parcels") "alice" "editors").geometry_type.isSome = true
    ∧ (dpScenarioB ("Map1" ++ "." ++ "parcels") "alice" "editors").attributes.isSome = true
    ∧ (dpScenarioB ("Map1" ++ "." ++ "parcels") "alice" "editors").fields.isSome = true
    ∧ (exceptIsOk (edit_layer_config dpScenarioB "Map1" "parcels" "alice" "editors").2 = true
      ∧ (edit_layer_config dpMissingGeometry "M" "L" "u" "g").2 = .error "KeyError: geometry_type"
      ∧ (edit_layer_config dpMissingAttributes "M" "L" "u" "g").2 = .error "KeyError: attributes"
      ∧ (edit_layer_config dpMissingFields "M" "L" "u" "g").2 = .error "KeyError: fields") :=
  ⟨rfl, rfl, rfl,
    C10_totality_three_keys dpScenarioB "Map1" "parcels" "alice" "editors" rfl rfl rfl⟩

end QWC2
